import Mathlib

/-!
Shallow embedding of the security-log analysis pipeline in `src/agent.py`.

Scores are embedded as rationals (`ℚ`); Python's decimal literals map to the
exact rationals they denote.  Each pipeline node becomes a pure Lean function
named after the Python function it embeds; the straight-line graph built in
`create_real_agentic_workflow` becomes the composition `runPipeline`.
-/

/-- Computes whether `pat` occurs as a contiguous run at the head of the list
(embeds the anchored part of Python's substring test). -/
def leadMatch : List Char → List Char → Bool
  | [], _ => true
  | _ :: _, [] => false
  | p :: ps, c :: cs => p == c && leadMatch ps cs

/-- Computes whether `pat` occurs as a contiguous sublist anywhere
(embeds Python's `pat in s` for strings, over the character list). -/
def containsSub (pat : List Char) : List Char → Bool
  | [] => List.isEmpty pat
  | c :: cs => leadMatch pat (c :: cs) || containsSub pat cs

/-- Embeds the Python substring test `pat in s`. -/
def strContains (s pat : String) : Bool := containsSub pat.data s.data

/-- Lower-cases one character in the ASCII range (Python's `str.lower` agrees
with this on every character relevant to the router's ASCII keywords). -/
def lowerChar (c : Char) : Char :=
  if 65 ≤ c.toNat ∧ c.toNat ≤ 90 then Char.ofNat (c.toNat + 32) else c

/-- Embeds Python's `query.lower()`. -/
def lowerStr (s : String) : String := String.mk (s.data.map lowerChar)

/-- Embeds one log record (`logs` entry).  Optional fields of the Python dict
become `Option`; `params`/`body` are kept as the string form that
`str(e.get(..., ""))` produces, which is all the pipeline reads. -/
structure Event where
  endpoint : Option String := none
  response_code : Option Int := none
  params : String := ""
  body : String := ""
  user_id : Option Int := none
  user_agent : Option String := none
deriving DecidableEq, Repr

/-- Embeds Python's `max(generator, default=d)`. -/
def pyMax (xs : List ℚ) (d : ℚ) : ℚ :=
  match xs with
  | [] => d
  | x :: rest => rest.foldl max x

/-- Embeds the `priority_weights` dict set by `intent_router_node`. -/
structure PriorityWeights where
  sequence : ℚ
  payload : ℚ
  behavior : ℚ
deriving DecidableEq, Repr

/-- Fields written by `intent_router_node`. -/
structure IntentResult where
  analysis_mode : String
  priority_weights : PriorityWeights
  explanation_level : String
deriving DecidableEq, Repr

/-- Embeds `intent_router_node` from `src/agent.py`: lower-cases the query
(`(state.get("query") or "").lower()`), applies at most one keyword boost via
the `if`/`elif` chain, and sets the explanation level independently. -/
def intent_router_node (query : Option String) : IntentResult :=
  let q := lowerStr (query.getD "")
  let base : PriorityWeights := ⟨1, 1, 1⟩
  let mw :=
    if strContains q "sql" then
      ("payload_focus", { base with payload := 1.5 })
    else if strContains q "credential" || strContains q "login" then
      ("sequence_focus", { base with sequence := 1.5 })
    else if strContains q "behavior" then
      ("behavior_focus", { base with behavior := 1.5 })
    else ("full", base)
  { analysis_mode := mw.1
    priority_weights := mw.2
    explanation_level := if strContains q "explain" then "detailed" else "standard" }

/-- Output dict of `sequence_analyzer_node`. -/
structure SequenceFeatures where
  login_velocity : ℚ
  sequential_object_access : ℚ
  request_frequency : ℚ
  repeated_action_score : ℚ
deriving DecidableEq, Repr

/-- Key/value items of the `sequence_features` dict, in insertion order. -/
def SequenceFeatures.toList (sf : SequenceFeatures) : List (String × ℚ) :=
  [("login_velocity", sf.login_velocity),
   ("sequential_object_access", sf.sequential_object_access),
   ("request_frequency", sf.request_frequency),
   ("repeated_action_score", sf.repeated_action_score)]

/-- Embeds `sequence_analyzer_node` from `src/agent.py`. -/
def sequence_analyzer_node (logs : List Event) : SequenceFeatures :=
  { login_velocity := pyMax (logs.map fun e =>
      if e.endpoint = some "/api/login" ∧ e.response_code = some 401 then (0.9 : ℚ) else 0.1) 0.1
    sequential_object_access := pyMax (logs.map fun e =>
      if strContains (e.endpoint.getD "") "/api/users/" then (0.85 : ℚ) else 0.1) 0.1
    request_frequency := min ((logs.length : ℚ) / 10) 1
    repeated_action_score := pyMax (logs.map fun e =>
      if e.endpoint = some "/api/orders" then (0.8 : ℚ) else 0.1) 0.1 }

/-- Output dict of `payload_inspector_node`. -/
structure PayloadFeatures where
  sql_injection_score : ℚ
  unexpected_field_score : ℚ
  command_injection_score : ℚ
deriving DecidableEq, Repr

/-- Key/value items of the `payload_features` dict, in insertion order. -/
def PayloadFeatures.toList (pf : PayloadFeatures) : List (String × ℚ) :=
  [("sql_injection_score", pf.sql_injection_score),
   ("unexpected_field_score", pf.unexpected_field_score),
   ("command_injection_score", pf.command_injection_score)]

/-- Concatenation scanned for payload markers:
`str(e.get("params", "")) + str(e.get("body", ""))`. -/
def paramsText (e : Event) : String := e.params ++ e.body

/-- Loop body of `payload_inspector_node`: first component tracks
`sql_injection_score`, second `unexpected_field_score`. -/
def payloadStep (acc : ℚ × ℚ) (e : Event) : ℚ × ℚ :=
  let params := paramsText e
  (if strContains params "OR 1=1" ∨ strContains params "UNION SELECT" then (0.95 : ℚ) else acc.1,
   if strContains params "isAdmin" ∨ strContains params "role" then (0.9 : ℚ) else acc.2)

/-- Embeds `payload_inspector_node` from `src/agent.py`. -/
def payload_inspector_node (logs : List Event) : PayloadFeatures :=
  let su := logs.foldl payloadStep (0.1, 0.1)
  { sql_injection_score := su.1
    unexpected_field_score := su.2
    command_injection_score := 0.1 }

/-- Output dict of `behavior_profiler_node`. -/
structure BehaviorFeatures where
  geo_deviation_score : ℚ
  role_deviation_score : ℚ
  user_agent_anomaly_score : ℚ
deriving DecidableEq, Repr

/-- Key/value items of the `behavior_features` dict, in insertion order. -/
def BehaviorFeatures.toList (bf : BehaviorFeatures) : List (String × ℚ) :=
  [("geo_deviation_score", bf.geo_deviation_score),
   ("role_deviation_score", bf.role_deviation_score),
   ("user_agent_anomaly_score", bf.user_agent_anomaly_score)]

/-- Embeds `behavior_profiler_node` from `src/agent.py`. -/
def behavior_profiler_node (logs : List Event) : BehaviorFeatures :=
  { geo_deviation_score := 0.6
    role_deviation_score := pyMax (logs.map fun e =>
      if e.user_id = some 456 then (0.75 : ℚ) else 0.2) 0.2
    user_agent_anomaly_score := pyMax (logs.map fun e =>
      if strContains (e.user_agent.getD "") "sqlmap" then (0.8 : ℚ) else 0.2) 0.2 }

/-- Maximum of the values of a feature dict (`max(d.values())`); the dicts fed
to it are the fixed nonempty feature sets, so the default is never used. -/
def valuesMax (l : List (String × ℚ)) : ℚ := pyMax (l.map Prod.snd) 0

/-- Fields written by `risk_aggregator_node`. -/
structure RiskOutput where
  risk_score : ℚ
  risk_factors : List String
deriving DecidableEq, Repr

/-- Embeds `risk_aggregator_node` from `src/agent.py`: weighted sum of the
per-category maxima, and the names of all features strictly above `0.7`. -/
def risk_aggregator_node (sf : SequenceFeatures) (pf : PayloadFeatures)
    (bf : BehaviorFeatures) (weights : PriorityWeights) : RiskOutput :=
  let sequence_score := valuesMax sf.toList
  let payload_score := valuesMax pf.toList
  let behavior_score := valuesMax bf.toList
  let sequence_weight := 0.4 * weights.sequence
  let payload_weight := 0.4 * weights.payload
  let behavior_weight := 0.2 * weights.behavior
  { risk_score := sequence_weight * sequence_score + payload_weight * payload_score +
      behavior_weight * behavior_score
    risk_factors := ((sf.toList ++ pf.toList ++ bf.toList).filter fun kv => kv.2 > 0.7).map
      Prod.fst }

/-- Evidence record built for one evaluated hypothesis
(the dict `{"support": ..., "contradict": ..., "score": ...}`). -/
structure Evidence where
  support : List String
  contradict : List String
  score : ℚ
deriving DecidableEq, Repr

/-- One entry of the static `hypothesis_definitions` dict: label, primary
feature name with its value, supporting keys and contradicting keys. -/
structure HypDef where
  label : String
  primary_name : String
  primary_score : ℚ
  support_keys : List String
  contradict_keys : List String
deriving DecidableEq, Repr

/-- Embeds the `hypothesis_definitions` dict of `mini_agent_classifier_node`,
in insertion order. -/
def hypothesis_definitions (sf : SequenceFeatures) (pf : PayloadFeatures) : List HypDef :=
  [⟨"SQL_INJECTION", "sql_injection_score", pf.sql_injection_score,
     ["unexpected_field_score", "user_agent_anomaly_score"],
     ["login_velocity", "sequential_object_access"]⟩,
   ⟨"CREDENTIAL_STUFFING", "login_velocity", sf.login_velocity,
     ["request_frequency", "geo_deviation_score"],
     ["sql_injection_score", "sequential_object_access"]⟩,
   ⟨"POSSIBLE_IDOR", "sequential_object_access", sf.sequential_object_access,
     ["role_deviation_score", "request_frequency"],
     ["sql_injection_score", "login_velocity"]⟩,
   ⟨"BUSINESS_LOGIC_ABUSE", "repeated_action_score", sf.repeated_action_score,
     ["request_frequency", "role_deviation_score"],
     ["sql_injection_score", "login_velocity"]⟩]

/-- Lookup in a key/value list, defaulting to `0` (`dict.get(key, 0)`); the
fixed feature dicts have pairwise distinct keys, so first match is the match. -/
def lookupFeature (l : List (String × ℚ)) (key : String) : ℚ :=
  match l with
  | [] => 0
  | kv :: rest => if kv.1 = key then kv.2 else lookupFeature rest key

/-- Embeds `all_features = {**sf, **pf, **bf}` with `.get(key, 0)` lookup. -/
def all_features (sf : SequenceFeatures) (pf : PayloadFeatures) (bf : BehaviorFeatures)
    (key : String) : ℚ :=
  lookupFeature (sf.toList ++ pf.toList ++ bf.toList) key

/-- Body of the loop over `defn["support_keys"]`: a key whose feature value
exceeds `0.5` is appended to the support list and adds `0.1` to the score. -/
def applySupport (af : String → ℚ) (ev : Evidence) (key : String) : Evidence :=
  if af key > 0.5 then
    { ev with support := ev.support ++ [key], score := ev.score + 0.1 }
  else ev

/-- Body of the loop over `defn["contradict_keys"]`: a key whose feature value
exceeds `0.7` is appended to the contradict list and subtracts `0.15`. -/
def applyContradict (af : String → ℚ) (ev : Evidence) (key : String) : Evidence :=
  if af key > 0.7 then
    { ev with contradict := ev.contradict ++ [key], score := ev.score - 0.15 }
  else ev

/-- Evaluation of one hypothesis inside `mini_agent_classifier_node`: `none`
when the primary value is `≤ 0.5` (the `continue` branch), otherwise the
evidence record, whose final score is clamped at `0` and scaled by
`risk_score`. -/
def evaluate_hypothesis (af : String → ℚ) (risk_score : ℚ) (h : HypDef) : Option Evidence :=
  if h.primary_score ≤ 0.5 then none
  else
    let ev0 : Evidence := ⟨[h.primary_name], [], h.primary_score⟩
    let ev1 := h.support_keys.foldl (applySupport af) ev0
    let ev2 := h.contradict_keys.foldl (applyContradict af) ev1
    some { ev2 with score := max ev2.score 0 * risk_score }

/-- The `evaluated` list of `mini_agent_classifier_node`: the hypotheses that
survive the primary-value filter, paired with their evidence, in catalogue
order. -/
def evaluated_hypotheses (sf : SequenceFeatures) (pf : PayloadFeatures)
    (bf : BehaviorFeatures) (risk_score : ℚ) : List (String × Evidence) :=
  (hypothesis_definitions sf pf).filterMap fun h =>
    (evaluate_hypothesis (all_features sf pf bf) risk_score h).map fun ev => (h.label, ev)

/-- Sort order used by `evaluated.sort(key=..., reverse=True)`: score
descending.  Python's sort is stable, as is `List.insertionSort`. -/
def scoreGE (a b : String × Evidence) : Prop := b.2.score ≤ a.2.score

instance : DecidableRel scoreGE :=
  fun a b => inferInstanceAs (Decidable (b.2.score ≤ a.2.score))

instance : IsTotal (String × Evidence) scoreGE :=
  ⟨fun a b => le_total b.2.score a.2.score⟩

instance : IsTrans (String × Evidence) scoreGE :=
  ⟨fun _ _ _ h1 h2 => le_trans h2 h1⟩

/-- The `analysis_summary` dict. -/
structure AnalysisSummary where
  selected_alert : Option String
  confidence : ℚ
  supporting_evidence : List String
  contradicting_evidence : List String
deriving DecidableEq, Repr

/-- Fields written by `mini_agent_classifier_node`. -/
structure ClassifierOutput where
  alert_type : Option String
  alert_confidence : ℚ
  analysis_summary : AnalysisSummary
deriving DecidableEq, Repr

/-- Embeds the selection part of `mini_agent_classifier_node`: empty
`evaluated` yields the null alert; otherwise the list is sorted by score
descending, the top entry is selected, and when a second entry exists within
`0.1` of the top score the label is overridden to `MULTI_VECTOR_ATTACK`
(confidence and evidence lists stay those of the top entry).  The inner `[]`
case is unreachable: sorting a nonempty list is nonempty. -/
def mini_agent_classifier_node (sf : SequenceFeatures) (pf : PayloadFeatures)
    (bf : BehaviorFeatures) (risk_score : ℚ) : ClassifierOutput :=
  let evaluated := evaluated_hypotheses sf pf bf risk_score
  if evaluated.isEmpty then
    ⟨none, 0, ⟨none, 0, [], []⟩⟩
  else
    match List.insertionSort scoreGE evaluated with
    | [] => ⟨none, 0, ⟨none, 0, [], []⟩⟩
    | (label0, ev0) :: rest =>
      let top_label :=
        match rest with
        | (_, ev1) :: _ =>
          if |ev0.score - ev1.score| ≤ 0.1 then "MULTI_VECTOR_ATTACK" else label0
        | [] => label0
      ⟨some top_label, ev0.score, ⟨some top_label, ev0.score, ev0.support, ev0.contradict⟩⟩

/-- Terminal fields of the analysis state. -/
structure AnalysisResult where
  risk_score : ℚ
  risk_factors : List String
  alert_type : Option String
  alert_confidence : ℚ
  analysis_summary : AnalysisSummary
deriving DecidableEq, Repr

/-- Embeds the compiled straight-line graph of `create_real_agentic_workflow`:
log_ingest → intent_router → sequence_analyzer → payload_inspector →
behavior_profiler → risk_aggregator → mini_agent_classifier. -/
def runPipeline (logs : List Event) (query : Option String) : AnalysisResult :=
  let ir := intent_router_node query
  let sf := sequence_analyzer_node logs
  let pf := payload_inspector_node logs
  let bf := behavior_profiler_node logs
  let ra := risk_aggregator_node sf pf bf ir.priority_weights
  let c := mini_agent_classifier_node sf pf bf ra.risk_score
  ⟨ra.risk_score, ra.risk_factors, c.alert_type, c.alert_confidence, c.analysis_summary⟩

/-- Initial state passed to `graph.invoke` by `run_agent`: besides the fields
the pipeline reads (`logs`, `query`), it carries `selected_vuln` and an
arbitrary `client` object, which no analysis node reads. -/
structure InputState (α : Type) where
  selected_vuln : String := ""
  logs : List Event := []
  query : Option String := none
  client : α

/-- Embeds `run_agent`: invokes the compiled graph on the input state.  The
nodes read only `logs` and `query`, so the result is a function of those. -/
def run_agent {α : Type} (s : InputState α) : AnalysisResult :=
  runPipeline s.logs s.query

/-- Predicate for both SQL-injection payload markers of `payload_inspector_node`. -/
def sqlMarker (e : Event) : Bool :=
  strContains (paramsText e) "OR 1=1" || strContains (paramsText e) "UNION SELECT"

/-- Predicate for both unexpected-field payload markers of `payload_inspector_node`. -/
def fieldMarker (e : Event) : Bool :=
  strContains (paramsText e) "isAdmin" || strContains (paramsText e) "role"

lemma payloadStep_fst (acc : ℚ × ℚ) (e : Event) :
    (payloadStep acc e).1 = if sqlMarker e then (0.95 : ℚ) else acc.1 := by
  by_cases h : sqlMarker e = true <;>
    simp_all [payloadStep, sqlMarker, Bool.or_eq_true, decide_eq_true_eq]

lemma payloadStep_snd (acc : ℚ × ℚ) (e : Event) :
    (payloadStep acc e).2 = if fieldMarker e then (0.9 : ℚ) else acc.2 := by
  by_cases h : fieldMarker e = true <;>
    simp_all [payloadStep, fieldMarker, Bool.or_eq_true, decide_eq_true_eq]

lemma payload_foldl_fst (logs : List Event) (s u : ℚ) :
    (logs.foldl payloadStep (s, u)).1 = if logs.any sqlMarker then (0.95 : ℚ) else s := by
  induction logs generalizing s u with
  | nil => simp
  | cons e rest ih =>
    simp only [List.foldl_cons, List.any_cons, Bool.or_eq_true]
    rw [show payloadStep (s, u) e = ((payloadStep (s, u) e).1, (payloadStep (s, u) e).2) from rfl,
      ih, payloadStep_fst]
    by_cases h : sqlMarker e = true <;> by_cases h2 : rest.any sqlMarker = true <;> simp [h, h2]

lemma payload_foldl_snd (logs : List Event) (s u : ℚ) :
    (logs.foldl payloadStep (s, u)).2 = if logs.any fieldMarker then (0.9 : ℚ) else u := by
  induction logs generalizing s u with
  | nil => simp
  | cons e rest ih =>
    simp only [List.foldl_cons, List.any_cons, Bool.or_eq_true]
    rw [show payloadStep (s, u) e = ((payloadStep (s, u) e).1, (payloadStep (s, u) e).2) from rfl,
      ih, payloadStep_snd]
    by_cases h : fieldMarker e = true <;> by_cases h2 : rest.any fieldMarker = true <;> simp [h, h2]

lemma payload_inspector_node_sql (logs : List Event) :
    (payload_inspector_node logs).sql_injection_score =
      if logs.any sqlMarker then (0.95 : ℚ) else 0.1 := by
  simp only [payload_inspector_node]
  rw [payload_foldl_fst]

lemma payload_inspector_node_unexpected (logs : List Event) :
    (payload_inspector_node logs).unexpected_field_score =
      if logs.any fieldMarker then (0.9 : ℚ) else 0.1 := by
  simp only [payload_inspector_node]
  rw [payload_foldl_snd]

lemma foldl_max_bounds (lo hi : ℚ) (xs : List ℚ) (a : ℚ)
    (ha : lo ≤ a ∧ a ≤ hi) (hall : ∀ x ∈ xs, lo ≤ x ∧ x ≤ hi) :
    lo ≤ xs.foldl max a ∧ xs.foldl max a ≤ hi := by
  induction xs generalizing a with
  | nil => simpa using ha
  | cons x rest ih =>
    refine ih (max a x) ⟨le_trans ha.1 (le_max_left _ _), ?_⟩ fun y hy =>
      hall y (List.mem_cons_of_mem _ hy)
    exact max_le ha.2 (hall x (List.mem_cons_self _ _)).2

lemma pyMax_bounds (lo hi : ℚ) (xs : List ℚ) (d : ℚ)
    (hd : lo ≤ d ∧ d ≤ hi) (hall : ∀ x ∈ xs, lo ≤ x ∧ x ≤ hi) :
    lo ≤ pyMax xs d ∧ pyMax xs d ≤ hi := by
  match xs with
  | [] => simpa [pyMax] using hd
  | x :: rest =>
    simp only [pyMax]
    exact foldl_max_bounds lo hi rest x (hall x (List.mem_cons_self _ _))
      fun y hy => hall y (List.mem_cons_of_mem _ hy)

lemma foldl_applySupport_eq (af : String → ℚ) (keys : List String) (ev : Evidence) :
    keys.foldl (applySupport af) ev =
      ⟨ev.support ++ keys.filter (fun k => af k > 0.5), ev.contradict,
       ev.score + 0.1 * ((keys.filter fun k => af k > 0.5).length : ℚ)⟩ := by
  induction keys generalizing ev with
  | nil => simp
  | cons k ks ih =>
    simp only [List.foldl_cons, List.filter_cons]
    by_cases h : af k > 0.5
    · rw [show applySupport af ev k =
          { ev with support := ev.support ++ [k], score := ev.score + 0.1 } by
            simp [applySupport, h], ih]
      simp only [h, decide_True, if_true, Evidence.mk.injEq, List.append_assoc,
        List.singleton_append, List.length_cons]
      refine ⟨trivial, trivial, ?_⟩
      push_cast
      ring
    · rw [show applySupport af ev k = ev by simp [applySupport, h], ih]
      simp [h]

lemma foldl_applyContradict_eq (af : String → ℚ) (keys : List String) (ev : Evidence) :
    keys.foldl (applyContradict af) ev =
      ⟨ev.support, ev.contradict ++ keys.filter (fun k => af k > 0.7),
       ev.score - 0.15 * ((keys.filter fun k => af k > 0.7).length : ℚ)⟩ := by
  induction keys generalizing ev with
  | nil => simp
  | cons k ks ih =>
    simp only [List.foldl_cons, List.filter_cons]
    by_cases h : af k > 0.7
    · rw [show applyContradict af ev k =
          { ev with contradict := ev.contradict ++ [k], score := ev.score - 0.15 } by
            simp [applyContradict, h], ih]
      simp only [h, decide_True, if_true, Evidence.mk.injEq, List.append_assoc,
        List.singleton_append, List.length_cons]
      refine ⟨trivial, trivial, ?_⟩
      push_cast
      ring
    · rw [show applyContradict af ev k = ev by simp [applyContradict, h], ih]
      simp [h]

/-- Closed form of `evaluate_hypothesis` on a surviving hypothesis. -/
lemma evaluate_hypothesis_of_gt (af : String → ℚ) (risk : ℚ) (h : HypDef)
    (hp : 0.5 < h.primary_score) :
    evaluate_hypothesis af risk h =
      some ⟨h.primary_name :: h.support_keys.filter (fun k => af k > 0.5),
            h.contradict_keys.filter (fun k => af k > 0.7),
            max (h.primary_score
                + 0.1 * ((h.support_keys.filter fun k => af k > 0.5).length : ℚ)
                - 0.15 * ((h.contradict_keys.filter fun k => af k > 0.7).length : ℚ)) 0
              * risk⟩ := by
  simp only [evaluate_hypothesis, if_neg (not_le.mpr hp), foldl_applySupport_eq,
    foldl_applyContradict_eq]
  simp

lemma evaluate_hypothesis_of_le (af : String → ℚ) (risk : ℚ) (h : HypDef)
    (hp : h.primary_score ≤ 0.5) :
    evaluate_hypothesis af risk h = none := by
  rw [evaluate_hypothesis, if_pos hp]

lemma mem_evaluated_hypotheses {sf : SequenceFeatures} {pf : PayloadFeatures}
    {bf : BehaviorFeatures} {risk : ℚ} {x : String × Evidence}
    (hx : x ∈ evaluated_hypotheses sf pf bf risk) :
    ∃ h ∈ hypothesis_definitions sf pf, x.1 = h.label ∧
      evaluate_hypothesis (all_features sf pf bf) risk h = some x.2 := by
  simp only [evaluated_hypotheses, List.mem_filterMap] at hx
  obtain ⟨h, hm, hopt⟩ := hx
  cases ho : evaluate_hypothesis (all_features sf pf bf) risk h with
  | none => rw [ho] at hopt; simp at hopt
  | some ev =>
    rw [ho] at hopt
    simp only [Option.map_some', Option.some.injEq] at hopt
    subst hopt
    exact ⟨h, hm, rfl, ho⟩

lemma evaluated_score_eq {sf : SequenceFeatures} {pf : PayloadFeatures}
    {bf : BehaviorFeatures} {risk : ℚ} {x : String × Evidence}
    (hx : x ∈ evaluated_hypotheses sf pf bf risk) :
    ∃ s : ℚ, x.2.score = max s 0 * risk := by
  obtain ⟨h, _, _, ho⟩ := mem_evaluated_hypotheses hx
  have hp : 0.5 < h.primary_score := by
    by_contra hle
    rw [evaluate_hypothesis_of_le _ _ _ (not_lt.mp hle)] at ho
    exact Option.noConfusion ho
  rw [evaluate_hypothesis_of_gt _ _ _ hp] at ho
  have hxe := Option.some_inj.mp ho
  exact ⟨_, by rw [← hxe]⟩

lemma evaluated_not_empty_of_sorted_cons {sf : SequenceFeatures} {pf : PayloadFeatures}
    {bf : BehaviorFeatures} {risk : ℚ} {y : String × Evidence}
    {rest : List (String × Evidence)}
    (hs : List.insertionSort scoreGE (evaluated_hypotheses sf pf bf risk) = y :: rest) :
    (evaluated_hypotheses sf pf bf risk).isEmpty = false := by
  rcases hev : evaluated_hypotheses sf pf bf risk with _ | ⟨z, l⟩
  · rw [hev] at hs
    simp [List.insertionSort] at hs
  · simp

lemma classifier_eq_of_sorted_single {sf : SequenceFeatures} {pf : PayloadFeatures}
    {bf : BehaviorFeatures} {risk : ℚ} {l0 : String} {e0 : Evidence}
    (hs : List.insertionSort scoreGE (evaluated_hypotheses sf pf bf risk) = [(l0, e0)]) :
    mini_agent_classifier_node sf pf bf risk =
      ⟨some l0, e0.score, ⟨some l0, e0.score, e0.support, e0.contradict⟩⟩ := by
  simp only [mini_agent_classifier_node, evaluated_not_empty_of_sorted_cons hs,
    Bool.false_eq_true, if_false, hs]

lemma classifier_eq_of_sorted_pair {sf : SequenceFeatures} {pf : PayloadFeatures}
    {bf : BehaviorFeatures} {risk : ℚ} {l0 l1 : String} {e0 e1 : Evidence}
    {rest : List (String × Evidence)}
    (hs : List.insertionSort scoreGE (evaluated_hypotheses sf pf bf risk)
        = (l0, e0) :: (l1, e1) :: rest) :
    mini_agent_classifier_node sf pf bf risk =
      ⟨some (if |e0.score - e1.score| ≤ 0.1 then "MULTI_VECTOR_ATTACK" else l0), e0.score,
       ⟨some (if |e0.score - e1.score| ≤ 0.1 then "MULTI_VECTOR_ATTACK" else l0), e0.score,
        e0.support, e0.contradict⟩⟩ := by
  simp only [mini_agent_classifier_node, evaluated_not_empty_of_sorted_cons hs,
    Bool.false_eq_true, if_false, hs]

lemma sorted_head_max {l : List (String × Evidence)} {l0 : String} {e0 : Evidence}
    {rest : List (String × Evidence)}
    (hs : List.insertionSort scoreGE l = (l0, e0) :: rest) :
    ∀ x ∈ l, x.2.score ≤ e0.score := by
  intro x hx
  have hmem : x ∈ (l0, e0) :: rest := by
    rw [← hs]
    exact (List.mem_insertionSort scoreGE).mpr hx
  have hsorted : List.Sorted scoreGE ((l0, e0) :: rest) := by
    rw [← hs]
    exact List.sorted_insertionSort scoreGE l
  rcases List.mem_cons.mp hmem with h | h
  · subst h
    exact le_refl _
  · exact (List.sorted_cons.mp hsorted).1 x h

lemma sorted_head_mem {l : List (String × Evidence)} {l0 : String} {e0 : Evidence}
    {rest : List (String × Evidence)}
    (hs : List.insertionSort scoreGE l = (l0, e0) :: rest) : (l0, e0) ∈ l := by
  rw [← List.mem_insertionSort scoreGE, hs]
  exact List.mem_cons_self _ _

lemma any_eq_of_perm {α : Type} {l₁ l₂ : List α} (h : l₁.Perm l₂) (p : α → Bool) :
    l₁.any p = l₂.any p := by
  cases hx : l₂.any p
  · cases hy : l₁.any p
    · rfl
    · rw [List.any_eq_true] at hy
      obtain ⟨e, he, hp⟩ := hy
      rw [List.any_eq_false] at hx
      exact absurd hp (hx e (h.mem_iff.mp he))
  · cases hy : l₁.any p
    · rw [List.any_eq_true] at hx
      obtain ⟨e, he, hp⟩ := hx
      rw [List.any_eq_false] at hy
      exact absurd hp (hy e (h.mem_iff.mpr he))
    · rfl

/-- C4 counterexample: on a single event whose params+body text contains
`"role"`, the code sets `unexpected_field_score` to `0.9`, not `0.95` as the
claim states (the `0.95` constant is used only for `sql_injection_score`). -/
theorem unexpected_field_constant_cex :
    (payload_inspector_node [{ params := "role" }]).unexpected_field_score = 0.9 ∧
    ¬ (payload_inspector_node [{ params := "role" }]).unexpected_field_score = 0.95 := by
  have h := payload_inspector_node_unexpected [{ params := "role" }]
  rw [if_pos (by decide)] at h
  rw [h]
  norm_num

/-- C4 (amended): `unexpected_field_score` follows the same sticky-high rule
as `sql_injection_score`, but its raised value is `0.9`: it starts at `0.1`,
is set to `0.9` exactly when some event's concatenated params+body text
contains `"isAdmin"` or `"role"`, is never lowered by a later non-matching
event, and is independent of event order (`sql_injection_score` shown
alongside with its own raised value `0.95`). -/
theorem unexpected_field_sticky (logs : List Event) :
    ((payload_inspector_node logs).unexpected_field_score
        = if logs.any fieldMarker then (0.9 : ℚ) else 0.1) ∧
    ((payload_inspector_node logs).sql_injection_score
        = if logs.any sqlMarker then (0.95 : ℚ) else 0.1) ∧
    (∀ logs₂ : List Event, logs.Perm logs₂ →
        (payload_inspector_node logs₂).unexpected_field_score
          = (payload_inspector_node logs).unexpected_field_score) := by
  refine ⟨payload_inspector_node_unexpected logs, payload_inspector_node_sql logs, ?_⟩
  intro logs₂ hperm
  rw [payload_inspector_node_unexpected, payload_inspector_node_unexpected,
    any_eq_of_perm hperm]

/-- Witness for the amended C4 theorem at a concrete two-event batch and its
reversal. -/
theorem unexpected_field_sticky_witness :
    ([({ params := "x=role" } : Event), { params := "plain" }].Perm
        [({ params := "plain" } : Event), { params := "x=role" }]) ∧
    (payload_inspector_node [({ params := "plain" } : Event), { params := "x=role" }]).unexpected_field_score
      = (payload_inspector_node [({ params := "x=role" } : Event), { params := "plain" }]).unexpected_field_score ∧
    ((payload_inspector_node [({ params := "x=role" } : Event), { params := "plain" }]).unexpected_field_score
      = if [({ params := "x=role" } : Event), { params := "plain" }].any fieldMarker then (0.9 : ℚ)
        else 0.1) :=
  ⟨by decide,
   (unexpected_field_sticky [{ params := "x=role" }, { params := "plain" }]).2.2
     [{ params := "plain" }, { params := "x=role" }] (by decide),
   (unexpected_field_sticky [{ params := "x=role" }, { params := "plain" }]).1⟩

/-- C5: the IntentRouter applies at most one priority boost, first match wins,
with keyword containment evaluated on the lower-cased query exactly as
`intent_router_node` does: `"sql"` forces `payload_focus` with payload weight
`1.5` regardless of other keywords; otherwise `"credential"`/`"login"` give
`sequence_focus`; otherwise `"behavior"` gives `behavior_focus`; an absent or
empty query (and any query with none of the keywords) yields mode `full` with
all weights `1.0`. -/
theorem intent_router_priority (query : Option String) :
    (query = none ∨ query = some "" →
        intent_router_node query = ⟨"full", ⟨1, 1, 1⟩, "standard"⟩) ∧
    (strContains (lowerStr (query.getD "")) "sql" = true →
        (intent_router_node query).analysis_mode = "payload_focus" ∧
        (intent_router_node query).priority_weights = ⟨1, 1.5, 1⟩) ∧
    (strContains (lowerStr (query.getD "")) "sql" = false →
        (strContains (lowerStr (query.getD "")) "credential" = true ∨
         strContains (lowerStr (query.getD "")) "login" = true) →
        (intent_router_node query).analysis_mode = "sequence_focus" ∧
        (intent_router_node query).priority_weights = ⟨1.5, 1, 1⟩) ∧
    (strContains (lowerStr (query.getD "")) "sql" = false →
        strContains (lowerStr (query.getD "")) "credential" = false →
        strContains (lowerStr (query.getD "")) "login" = false →
        strContains (lowerStr (query.getD "")) "behavior" = true →
        (intent_router_node query).analysis_mode = "behavior_focus" ∧
        (intent_router_node query).priority_weights = ⟨1, 1, 1.5⟩) ∧
    (strContains (lowerStr (query.getD "")) "sql" = false →
        strContains (lowerStr (query.getD "")) "credential" = false →
        strContains (lowerStr (query.getD "")) "login" = false →
        strContains (lowerStr (query.getD "")) "behavior" = false →
        (intent_router_node query).analysis_mode = "full" ∧
        (intent_router_node query).priority_weights = ⟨1, 1, 1⟩) := by
  refine ⟨?_, ?_, ?_, ?_, ?_⟩
  · rintro (rfl | rfl) <;> decide
  · intro h1
    constructor <;> simp [intent_router_node, h1]
  · intro h1 h2
    rcases h2 with h2 | h2 <;>
      constructor <;> simp [intent_router_node, h1, h2]
  · intro h1 h2 h3 h4
    constructor <;> simp [intent_router_node, h1, h2, h3, h4]
  · intro h1 h2 h3 h4
    constructor <;> simp [intent_router_node, h1, h2, h3, h4]

/-- Witness for C5 at the spec's example query `"sql login issue"` (both
`"sql"` and `"login"` present; sql wins) and at the absent query. -/
theorem intent_router_priority_witness :
    ((intent_router_node (some "sql login issue")).analysis_mode = "payload_focus" ∧
      (intent_router_node (some "sql login issue")).priority_weights = ⟨1, 1.5, 1⟩) ∧
    intent_router_node none = ⟨"full", ⟨1, 1, 1⟩, "standard"⟩ :=
  ⟨(intent_router_priority (some "sql login issue")).2.1 (by decide),
   (intent_router_priority none).1 (Or.inl rfl)⟩

/-- C6: the risk score is the weighted sum of per-category feature maxima,
with base weights 0.4/0.4/0.2 scaled by the router's priority weights; and at
category maxima 0.9/0.1/0.1 with default weights it is exactly 0.42. -/
theorem risk_score_weighted_sum (logs : List Event) (query : Option String) :
    ((runPipeline logs query).risk_score =
      0.4 * (intent_router_node query).priority_weights.sequence *
          valuesMax (sequence_analyzer_node logs).toList +
      0.4 * (intent_router_node query).priority_weights.payload *
          valuesMax (payload_inspector_node logs).toList +
      0.2 * (intent_router_node query).priority_weights.behavior *
          valuesMax (behavior_profiler_node logs).toList) ∧
    risk_aggregator_node ⟨0.9, 0.1, 0.1, 0.1⟩ ⟨0.1, 0.1, 0.1⟩ ⟨0.1, 0.1, 0.1⟩ ⟨1, 1, 1⟩
      = ⟨0.42, ["login_velocity"]⟩ := by
  constructor
  · rfl
  · norm_num [risk_aggregator_node, valuesMax, pyMax, SequenceFeatures.toList,
      PayloadFeatures.toList, BehaviorFeatures.toList, max_def]

/-- C8: when all four primary feature values are at most 0.5, no candidate is
emitted: the alert type is null, the confidence is 0, and both evidence lists
in the analysis summary are empty. -/
theorem no_candidate_null_alert (sf : SequenceFeatures) (pf : PayloadFeatures)
    (bf : BehaviorFeatures) (risk : ℚ)
    (h1 : pf.sql_injection_score ≤ 0.5) (h2 : sf.login_velocity ≤ 0.5)
    (h3 : sf.sequential_object_access ≤ 0.5) (h4 : sf.repeated_action_score ≤ 0.5) :
    mini_agent_classifier_node sf pf bf risk = ⟨none, 0, ⟨none, 0, [], []⟩⟩ := by
  have hev : evaluated_hypotheses sf pf bf risk = [] := by
    simp [evaluated_hypotheses, hypothesis_definitions, evaluate_hypothesis, h1, h2, h3, h4]
  simp [mini_agent_classifier_node, hev]

/-- Witness for C8 at the empty-batch feature values. -/
theorem no_candidate_null_alert_witness :
    ((0.1 : ℚ) ≤ 0.5) ∧
      mini_agent_classifier_node ⟨0.1, 0.1, 0.1, 0.1⟩ ⟨0.1, 0.1, 0.1⟩ ⟨0.6, 0.2, 0.2⟩ 0.2
        = ⟨none, 0, ⟨none, 0, [], []⟩⟩ :=
  ⟨by norm_num,
   no_candidate_null_alert ⟨0.1, 0.1, 0.1, 0.1⟩ ⟨0.1, 0.1, 0.1⟩ ⟨0.6, 0.2, 0.2⟩ 0.2
     (by norm_num) (by norm_num) (by norm_num) (by norm_num)⟩

/-- C9: the pipeline is a deterministic stateless function of the event batch
and query: any two initial states agreeing on `logs` and `query` — whatever
their `selected_vuln` values and their `client` objects, even of different
types — produce the same AnalysisResult.  Two runs on identical inputs are the
special case with both states equal. -/
theorem pipeline_deterministic {α β : Type} (s₁ : InputState α) (s₂ : InputState β)
    (hlogs : s₁.logs = s₂.logs) (hq : s₁.query = s₂.query) :
    run_agent s₁ = run_agent s₂ := by
  unfold run_agent
  rw [hlogs, hq]

/-- Witness for C9: identical batch and query, different vuln tag and clients
of different types. -/
theorem pipeline_deterministic_witness :
    run_agent (⟨"vuln-a", [{ params := "OR 1=1" }], some "explain sql", 7⟩ : InputState ℕ) =
      run_agent
        (⟨"vuln-b", [{ params := "OR 1=1" }], some "explain sql", "client"⟩ : InputState String) :=
  pipeline_deterministic _ _ rfl rfl

/-- C3: a catalogue hypothesis is evaluated exactly when its primary feature
value exceeds 0.5, and its evidence score is the primary value plus 0.1 per
supporting key above 0.5, minus 0.15 per contradicting key above 0.7, clamped
at 0, then multiplied by the aggregate risk score. -/
theorem hypothesis_evaluation_rule (sf : SequenceFeatures) (pf : PayloadFeatures)
    (bf : BehaviorFeatures) (risk : ℚ) (h : HypDef)
    (hmem : h ∈ hypothesis_definitions sf pf) :
    ((evaluate_hypothesis (all_features sf pf bf) risk h).isSome ↔ 0.5 < h.primary_score) ∧
    ∀ ev, evaluate_hypothesis (all_features sf pf bf) risk h = some ev →
      ev.score = max (h.primary_score
          + 0.1 * ((h.support_keys.filter fun k => all_features sf pf bf k > 0.5).length : ℚ)
          - 0.15 * ((h.contradict_keys.filter fun k => all_features sf pf bf k > 0.7).length : ℚ))
          0 * risk := by
  constructor
  · constructor
    · intro hsome
      by_contra hle
      rw [evaluate_hypothesis_of_le _ _ _ (not_lt.mp hle)] at hsome
      simp at hsome
    · intro hgt
      rw [evaluate_hypothesis_of_gt _ _ _ hgt]
      rfl
  · intro ev hev
    have hp : 0.5 < h.primary_score := by
      by_contra hle
      rw [evaluate_hypothesis_of_le _ _ _ (not_lt.mp hle)] at hev
      exact Option.noConfusion hev
    rw [evaluate_hypothesis_of_gt _ _ _ hp] at hev
    rw [← Option.some_inj.mp hev]

/-- Witness for C3 at the SQL_INJECTION catalogue entry over concrete feature
values. -/
theorem hypothesis_evaluation_rule_witness :
    (evaluate_hypothesis (all_features ⟨0.79, 0, 0, 0⟩ ⟨0.9, 0, 0⟩ ⟨0, 0, 0⟩) 1
        ⟨"SQL_INJECTION", "sql_injection_score", 0.9,
          ["unexpected_field_score", "user_agent_anomaly_score"],
          ["login_velocity", "sequential_object_access"]⟩).isSome ↔ (0.5 : ℚ) < 0.9 :=
  (hypothesis_evaluation_rule ⟨0.79, 0, 0, 0⟩ ⟨0.9, 0, 0⟩ ⟨0, 0, 0⟩ 1 _
    (List.mem_cons_self _ _)).1

lemma pyMax_ite_bounds (logs : List Event) (p : Event → Prop) [DecidablePred p] (a b : ℚ)
    (ha : 0 ≤ a ∧ a ≤ 1) (hb : 0 ≤ b ∧ b ≤ 1) :
    0 ≤ pyMax (logs.map fun e => if p e then a else b) b ∧
      pyMax (logs.map fun e => if p e then a else b) b ≤ 1 := by
  apply pyMax_bounds 0 1 _ _ hb
  intro x hx
  obtain ⟨e, _, hee⟩ := List.mem_map.mp hx
  rw [← hee]
  split
  · exact ha
  · exact hb

lemma request_frequency_bounds (logs : List Event) :
    0 ≤ min ((logs.length : ℚ) / 10) 1 ∧ min ((logs.length : ℚ) / 10) 1 ≤ 1 :=
  ⟨le_min (by positivity) zero_le_one, min_le_right _ _⟩

lemma feature_entry_bounds (logs : List Event) (kv : String × ℚ)
    (hkv : kv ∈ (sequence_analyzer_node logs).toList ++ (payload_inspector_node logs).toList
        ++ (behavior_profiler_node logs).toList) :
    0 ≤ kv.2 ∧ kv.2 ≤ 1 := by
  simp only [SequenceFeatures.toList, PayloadFeatures.toList, BehaviorFeatures.toList,
    List.append_assoc, List.cons_append, List.nil_append, List.mem_cons,
    List.not_mem_nil, or_false] at hkv
  rcases hkv with h | h | h | h | h | h | h | h | h | h <;> subst h
  · exact pyMax_ite_bounds logs _ 0.9 0.1 (by norm_num) (by norm_num)
  · exact pyMax_ite_bounds logs _ 0.85 0.1 (by norm_num) (by norm_num)
  · exact request_frequency_bounds logs
  · exact pyMax_ite_bounds logs _ 0.8 0.1 (by norm_num) (by norm_num)
  · show 0 ≤ (payload_inspector_node logs).sql_injection_score ∧
      (payload_inspector_node logs).sql_injection_score ≤ 1
    rw [payload_inspector_node_sql]
    split <;> norm_num
  · show 0 ≤ (payload_inspector_node logs).unexpected_field_score ∧
      (payload_inspector_node logs).unexpected_field_score ≤ 1
    rw [payload_inspector_node_unexpected]
    split <;> norm_num
  · norm_num [payload_inspector_node]
  · norm_num [behavior_profiler_node]
  · exact pyMax_ite_bounds logs _ 0.75 0.2 (by norm_num) (by norm_num)
  · exact pyMax_ite_bounds logs _ 0.8 0.2 (by norm_num) (by norm_num)

/-- C7: every value of the three feature sets lies in the closed unit
interval, for every event batch (empty batches included). -/
theorem feature_values_unit_interval (logs : List Event) (kv : String × ℚ)
    (hkv : kv ∈ (sequence_analyzer_node logs).toList ++ (payload_inspector_node logs).toList
        ++ (behavior_profiler_node logs).toList) :
    0 ≤ kv.2 ∧ kv.2 ≤ 1 :=
  feature_entry_bounds logs kv hkv

/-- Witness for C7 at the empty batch and the `login_velocity` entry. -/
theorem feature_values_unit_interval_witness :
    (("login_velocity", (sequence_analyzer_node []).login_velocity)
        ∈ (sequence_analyzer_node []).toList ++ (payload_inspector_node []).toList
          ++ (behavior_profiler_node []).toList) ∧
    (0 ≤ (sequence_analyzer_node []).login_velocity ∧
      (sequence_analyzer_node []).login_velocity ≤ 1) :=
  ⟨List.mem_append_left _ (List.mem_cons_self _ _),
   feature_values_unit_interval [] _ (List.mem_append_left _ (List.mem_cons_self _ _))⟩

lemma intent_router_weights_nonneg (query : Option String) :
    0 ≤ (intent_router_node query).priority_weights.sequence ∧
    0 ≤ (intent_router_node query).priority_weights.payload ∧
    0 ≤ (intent_router_node query).priority_weights.behavior := by
  simp only [intent_router_node]
  refine ⟨?_, ?_, ?_⟩ <;> split_ifs <;> norm_num

lemma valuesMax_node_nonneg (logs : List Event) :
    0 ≤ valuesMax (sequence_analyzer_node logs).toList ∧
    0 ≤ valuesMax (payload_inspector_node logs).toList ∧
    0 ≤ valuesMax (behavior_profiler_node logs).toList := by
  refine ⟨?_, ?_, ?_⟩
  · apply (pyMax_bounds 0 1 _ _ (by norm_num) ?_).1
    intro x hx
    obtain ⟨kv, hkv, rfl⟩ := List.mem_map.mp hx
    exact feature_entry_bounds logs kv (List.mem_append_left _ (List.mem_append_left _ hkv))
  · apply (pyMax_bounds 0 1 _ _ (by norm_num) ?_).1
    intro x hx
    obtain ⟨kv, hkv, rfl⟩ := List.mem_map.mp hx
    exact feature_entry_bounds logs kv
      (List.mem_append_left _ (List.mem_append_right _ hkv))
  · apply (pyMax_bounds 0 1 _ _ (by norm_num) ?_).1
    intro x hx
    obtain ⟨kv, hkv, rfl⟩ := List.mem_map.mp hx
    exact feature_entry_bounds logs kv (List.mem_append_right _ hkv)

lemma runPipeline_risk_nonneg (logs : List Event) (query : Option String) :
    0 ≤ (runPipeline logs query).risk_score := by
  have hw := intent_router_weights_nonneg query
  have hm := valuesMax_node_nonneg logs
  show (0 : ℚ) ≤
    0.4 * (intent_router_node query).priority_weights.sequence *
        valuesMax (sequence_analyzer_node logs).toList +
      0.4 * (intent_router_node query).priority_weights.payload *
        valuesMax (payload_inspector_node logs).toList +
      0.2 * (intent_router_node query).priority_weights.behavior *
        valuesMax (behavior_profiler_node logs).toList
  have h1 := mul_nonneg (mul_nonneg (by norm_num : (0:ℚ) ≤ 0.4) hw.1) hm.1
  have h2 := mul_nonneg (mul_nonneg (by norm_num : (0:ℚ) ≤ 0.4) hw.2.1) hm.2.1
  have h3 := mul_nonneg (mul_nonneg (by norm_num : (0:ℚ) ≤ 0.2) hw.2.2) hm.2.2
  exact add_nonneg (add_nonneg h1 h2) h3

lemma classifier_confidence_nonneg (sf : SequenceFeatures) (pf : PayloadFeatures)
    (bf : BehaviorFeatures) (risk : ℚ) (hr : 0 ≤ risk) :
    0 ≤ (mini_agent_classifier_node sf pf bf risk).alert_confidence := by
  rcases hs : List.insertionSort scoreGE (evaluated_hypotheses sf pf bf risk) with
    _ | ⟨⟨l0, e0⟩, rest⟩
  · have hev : evaluated_hypotheses sf pf bf risk = [] := by
      have hlen := List.length_insertionSort scoreGE (evaluated_hypotheses sf pf bf risk)
      rw [hs] at hlen
      exact List.length_eq_zero.mp hlen.symm
    simp [mini_agent_classifier_node, hev]
  · obtain ⟨s, hsc⟩ := evaluated_score_eq (sorted_head_mem hs)
    rcases rest with _ | ⟨⟨l1, e1⟩, rest'⟩
    · rw [classifier_eq_of_sorted_single hs]
      show 0 ≤ e0.score
      rw [hsc]
      exact mul_nonneg (le_max_right _ _) hr
    · rw [classifier_eq_of_sorted_pair hs]
      show 0 ≤ e0.score
      rw [hsc]
      exact mul_nonneg (le_max_right _ _) hr

/-- C10: the alert confidence is never negative — it is 0 when no hypothesis
survives, and otherwise a clamped-at-zero evidence score times the
nonnegative risk score. -/
theorem alert_confidence_nonneg (logs : List Event) (query : Option String) :
    0 ≤ (runPipeline logs query).alert_confidence :=
  classifier_confidence_nonneg (sequence_analyzer_node logs) (payload_inspector_node logs)
    (behavior_profiler_node logs) _ (runPipeline_risk_nonneg logs query)

/-- C1 counterexample: on a batch with one SQL-injection event (no supporting
key fires), the selected hypothesis is SQL_INJECTION, the claim predicts an
empty supporting_evidence list (no supporting key exceeds 0.5), but the code
records the primary feature name itself as supporting evidence. -/
theorem evidence_primary_name_cex :
    (runPipeline [{ params := "OR 1=1" }] none).alert_type = some "SQL_INJECTION" ∧
    (runPipeline [{ params := "OR 1=1" }] none).analysis_summary.supporting_evidence
      = ["sql_injection_score"] ∧
    (["unexpected_field_score", "user_agent_anomaly_score"].filter fun k =>
        all_features (sequence_analyzer_node [{ params := "OR 1=1" }])
          (payload_inspector_node [{ params := "OR 1=1" }])
          (behavior_profiler_node [{ params := "OR 1=1" }]) k > 0.5) = [] := by
  have hsf : sequence_analyzer_node [{ params := "OR 1=1" }] = ⟨0.1, 0.1, 0.1, 0.1⟩ := by
    norm_num [sequence_analyzer_node, pyMax]
    decide
  have hpf : payload_inspector_node [{ params := "OR 1=1" }] = ⟨0.95, 0.1, 0.1⟩ := by
    norm_num [payload_inspector_node, payloadStep, paramsText]
    decide
  have hbf : behavior_profiler_node [{ params := "OR 1=1" }] = ⟨0.6, 0.2, 0.2⟩ := by
    norm_num [behavior_profiler_node, pyMax]
    decide
  have hir : intent_router_node none = ⟨"full", ⟨1, 1, 1⟩, "standard"⟩ := by decide
  have hrisk : (risk_aggregator_node ⟨0.1, 0.1, 0.1, 0.1⟩ ⟨0.95, 0.1, 0.1⟩ ⟨0.6, 0.2, 0.2⟩
      ⟨1, 1, 1⟩).risk_score = 0.54 := by
    norm_num [risk_aggregator_node, valuesMax, pyMax, SequenceFeatures.toList,
      PayloadFeatures.toList, BehaviorFeatures.toList, max_def]
  have h1 : evaluate_hypothesis
      (all_features ⟨0.1, 0.1, 0.1, 0.1⟩ ⟨0.95, 0.1, 0.1⟩ ⟨0.6, 0.2, 0.2⟩) 0.54
      ⟨"SQL_INJECTION", "sql_injection_score", 0.95,
        ["unexpected_field_score", "user_agent_anomaly_score"],
        ["login_velocity", "sequential_object_access"]⟩
      = some ⟨["sql_injection_score"], [], 0.513⟩ := by
    rw [evaluate_hypothesis_of_gt _ _ _ (by norm_num)]
    simp [List.filter_cons, List.filter_nil, decide_eq_true_eq, all_features, lookupFeature,
      SequenceFeatures.toList, PayloadFeatures.toList, BehaviorFeatures.toList]
    norm_num [max_def]
  have h2 : evaluate_hypothesis
      (all_features ⟨0.1, 0.1, 0.1, 0.1⟩ ⟨0.95, 0.1, 0.1⟩ ⟨0.6, 0.2, 0.2⟩) 0.54
      ⟨"CREDENTIAL_STUFFING", "login_velocity", 0.1,
        ["request_frequency", "geo_deviation_score"],
        ["sql_injection_score", "sequential_object_access"]⟩ = none :=
    evaluate_hypothesis_of_le _ _ _ (by norm_num)
  have h3 : evaluate_hypothesis
      (all_features ⟨0.1, 0.1, 0.1, 0.1⟩ ⟨0.95, 0.1, 0.1⟩ ⟨0.6, 0.2, 0.2⟩) 0.54
      ⟨"POSSIBLE_IDOR", "sequential_object_access", 0.1,
        ["role_deviation_score", "request_frequency"],
        ["sql_injection_score", "login_velocity"]⟩ = none :=
    evaluate_hypothesis_of_le _ _ _ (by norm_num)
  have h4 : evaluate_hypothesis
      (all_features ⟨0.1, 0.1, 0.1, 0.1⟩ ⟨0.95, 0.1, 0.1⟩ ⟨0.6, 0.2, 0.2⟩) 0.54
      ⟨"BUSINESS_LOGIC_ABUSE", "repeated_action_score", 0.1,
        ["request_frequency", "role_deviation_score"],
        ["sql_injection_score", "login_velocity"]⟩ = none :=
    evaluate_hypothesis_of_le _ _ _ (by norm_num)
  have hev : evaluated_hypotheses ⟨0.1, 0.1, 0.1, 0.1⟩ ⟨0.95, 0.1, 0.1⟩ ⟨0.6, 0.2, 0.2⟩ 0.54
      = [("SQL_INJECTION", ⟨["sql_injection_score"], [], 0.513⟩)] := by
    simp only [evaluated_hypotheses, hypothesis_definitions, List.filterMap_cons,
      List.filterMap_nil, h1, h2, h3, h4, Option.map_some', Option.map_none']
  have hsorted : List.insertionSort scoreGE
      (evaluated_hypotheses ⟨0.1, 0.1, 0.1, 0.1⟩ ⟨0.95, 0.1, 0.1⟩ ⟨0.6, 0.2, 0.2⟩ 0.54)
      = [("SQL_INJECTION", ⟨["sql_injection_score"], [], 0.513⟩)] := by
    rw [hev]
    rfl
  have hcls := classifier_eq_of_sorted_single hsorted
  refine ⟨?_, ?_, ?_⟩
  · show (mini_agent_classifier_node (sequence_analyzer_node [{ params := "OR 1=1" }])
      (payload_inspector_node [{ params := "OR 1=1" }])
      (behavior_profiler_node [{ params := "OR 1=1" }])
      (risk_aggregator_node (sequence_analyzer_node [{ params := "OR 1=1" }])
        (payload_inspector_node [{ params := "OR 1=1" }])
        (behavior_profiler_node [{ params := "OR 1=1" }])
        (intent_router_node none).priority_weights).risk_score).alert_type
      = some "SQL_INJECTION"
    rw [hsf, hpf, hbf, hir]
    show (mini_agent_classifier_node _ _ _ ((risk_aggregator_node ⟨0.1, 0.1, 0.1, 0.1⟩
      ⟨0.95, 0.1, 0.1⟩ ⟨0.6, 0.2, 0.2⟩ ⟨1, 1, 1⟩).risk_score)).alert_type = some "SQL_INJECTION"
    rw [hrisk, hcls]
  · show (mini_agent_classifier_node (sequence_analyzer_node [{ params := "OR 1=1" }])
      (payload_inspector_node [{ params := "OR 1=1" }])
      (behavior_profiler_node [{ params := "OR 1=1" }])
      (risk_aggregator_node (sequence_analyzer_node [{ params := "OR 1=1" }])
        (payload_inspector_node [{ params := "OR 1=1" }])
        (behavior_profiler_node [{ params := "OR 1=1" }])
        (intent_router_node none).priority_weights).risk_score).analysis_summary.supporting_evidence
      = ["sql_injection_score"]
    rw [hsf, hpf, hbf, hir]
    show (mini_agent_classifier_node _ _ _ ((risk_aggregator_node ⟨0.1, 0.1, 0.1, 0.1⟩
      ⟨0.95, 0.1, 0.1⟩ ⟨0.6, 0.2, 0.2⟩ ⟨1, 1, 1⟩).risk_score)).analysis_summary.supporting_evidence
      = ["sql_injection_score"]
    rw [hrisk, hcls]
  · rw [hsf, hpf, hbf]
    simp [List.filter_cons, List.filter_nil, decide_eq_true_eq, all_features, lookupFeature,
      SequenceFeatures.toList, PayloadFeatures.toList, BehaviorFeatures.toList]
    norm_num

/-- C1 (amended): whenever a hypothesis is selected, the analysis summary's
`supporting_evidence` is the selected (top-scoring) hypothesis's primary
feature name followed by exactly those supporting keys whose feature value
exceeds 0.5, and its `contradicting_evidence` is exactly those contradicting
keys whose value exceeds 0.7.  The code seeds the support list with the
primary name, contrary to the original claim's parenthetical. -/
theorem selected_evidence_lists_shape (sf : SequenceFeatures) (pf : PayloadFeatures)
    (bf : BehaviorFeatures) (risk : ℚ)
    (hne : evaluated_hypotheses sf pf bf risk ≠ []) :
    ∃ h ∈ hypothesis_definitions sf pf,
      0.5 < h.primary_score ∧
      ((mini_agent_classifier_node sf pf bf risk).alert_type = some h.label ∨
       (mini_agent_classifier_node sf pf bf risk).alert_type = some "MULTI_VECTOR_ATTACK") ∧
      (mini_agent_classifier_node sf pf bf risk).analysis_summary.supporting_evidence
        = h.primary_name :: (h.support_keys.filter fun k => all_features sf pf bf k > 0.5) ∧
      (mini_agent_classifier_node sf pf bf risk).analysis_summary.contradicting_evidence
        = h.contradict_keys.filter fun k => all_features sf pf bf k > 0.7 := by
  rcases hs : List.insertionSort scoreGE (evaluated_hypotheses sf pf bf risk) with
    _ | ⟨⟨l0, e0⟩, rest⟩
  · exfalso
    apply hne
    have hlen := List.length_insertionSort scoreGE (evaluated_hypotheses sf pf bf risk)
    rw [hs] at hlen
    exact List.length_eq_zero.mp hlen.symm
  · obtain ⟨h, hm, hlbl, hsome⟩ := mem_evaluated_hypotheses (sorted_head_mem hs)
    have hp : 0.5 < h.primary_score := by
      by_contra hle
      rw [evaluate_hypothesis_of_le _ _ _ (not_lt.mp hle)] at hsome
      exact Option.noConfusion hsome
    rw [evaluate_hypothesis_of_gt _ _ _ hp] at hsome
    have he0 := Option.some_inj.mp hsome
    have hsup : e0.support
        = h.primary_name :: (h.support_keys.filter fun k => all_features sf pf bf k > 0.5) :=
      congrArg Evidence.support he0.symm
    have hcon : e0.contradict
        = h.contradict_keys.filter fun k => all_features sf pf bf k > 0.7 :=
      congrArg Evidence.contradict he0.symm
    have hl0 : l0 = h.label := hlbl
    rcases rest with _ | ⟨⟨l1, e1⟩, rest'⟩
    · rw [classifier_eq_of_sorted_single hs]
      exact ⟨h, hm, hp, Or.inl (by rw [hl0]), hsup, hcon⟩
    · rw [classifier_eq_of_sorted_pair hs]
      by_cases hc : |e0.score - e1.score| ≤ 0.1
      · refine ⟨h, hm, hp, Or.inr ?_, hsup, hcon⟩
        show some (if |e0.score - e1.score| ≤ 0.1 then "MULTI_VECTOR_ATTACK" else l0)
          = some "MULTI_VECTOR_ATTACK"
        rw [if_pos hc]
      · refine ⟨h, hm, hp, Or.inl ?_, hsup, hcon⟩
        show some (if |e0.score - e1.score| ≤ 0.1 then "MULTI_VECTOR_ATTACK" else l0)
          = some h.label
        rw [if_neg hc, hl0]

/-- Witness for the amended C1 theorem over concrete feature values on which
exactly one supporting key and one contradicting key fire. -/
theorem selected_evidence_lists_shape_witness :
    ∃ h ∈ hypothesis_definitions ⟨0.1, 0.1, 0.1, 0.1⟩ ⟨0.95, 0.1, 0.1⟩,
      0.5 < h.primary_score ∧
      ((mini_agent_classifier_node ⟨0.1, 0.1, 0.1, 0.1⟩ ⟨0.95, 0.1, 0.1⟩ ⟨0.6, 0.2, 0.2⟩
          0.54).alert_type = some h.label ∨
       (mini_agent_classifier_node ⟨0.1, 0.1, 0.1, 0.1⟩ ⟨0.95, 0.1, 0.1⟩ ⟨0.6, 0.2, 0.2⟩
          0.54).alert_type = some "MULTI_VECTOR_ATTACK") ∧
      (mini_agent_classifier_node ⟨0.1, 0.1, 0.1, 0.1⟩ ⟨0.95, 0.1, 0.1⟩ ⟨0.6, 0.2, 0.2⟩
          0.54).analysis_summary.supporting_evidence
        = h.primary_name :: (h.support_keys.filter fun k =>
            all_features ⟨0.1, 0.1, 0.1, 0.1⟩ ⟨0.95, 0.1, 0.1⟩ ⟨0.6, 0.2, 0.2⟩ k > 0.5) ∧
      (mini_agent_classifier_node ⟨0.1, 0.1, 0.1, 0.1⟩ ⟨0.95, 0.1, 0.1⟩ ⟨0.6, 0.2, 0.2⟩
          0.54).analysis_summary.contradicting_evidence
        = h.contradict_keys.filter fun k =>
            all_features ⟨0.1, 0.1, 0.1, 0.1⟩ ⟨0.95, 0.1, 0.1⟩ ⟨0.6, 0.2, 0.2⟩ k > 0.7 :=
  selected_evidence_lists_shape ⟨0.1, 0.1, 0.1, 0.1⟩ ⟨0.95, 0.1, 0.1⟩ ⟨0.6, 0.2, 0.2⟩ 0.54
    (by
      intro hcontra
      have := congrArg (fun l => ("SQL_INJECTION",
        (⟨["sql_injection_score"], [], 0.513⟩ : Evidence)) ∈ l) hcontra
      simp only [List.not_mem_nil, eq_iff_iff, iff_false] at this
      apply this
      simp only [evaluated_hypotheses, hypothesis_definitions, List.mem_filterMap]
      refine ⟨⟨"SQL_INJECTION", "sql_injection_score", 0.95,
        ["unexpected_field_score", "user_agent_anomaly_score"],
        ["login_velocity", "sequential_object_access"]⟩, List.mem_cons_self _ _, ?_⟩
      rw [evaluate_hypothesis_of_gt _ _ _ (by norm_num)]
      simp [List.filter_cons, List.filter_nil, decide_eq_true_eq, all_features, lookupFeature,
        SequenceFeatures.toList, PayloadFeatures.toList, BehaviorFeatures.toList]
      norm_num [max_def])

/-- C2: with at least two surviving hypotheses, the classifier keeps the
top-scoring hypothesis's confidence and evidence lists, and selects
MULTI_VECTOR_ATTACK exactly when the two highest evidence scores are within
0.1 of each other, the top hypothesis's own label otherwise.  The first three
conjuncts certify that `e0` and `e1` are indeed the two highest scores. -/
theorem tie_break_selection (sf : SequenceFeatures) (pf : PayloadFeatures)
    (bf : BehaviorFeatures) (risk : ℚ) (l0 l1 : String) (e0 e1 : Evidence)
    (rest : List (String × Evidence))
    (hs : List.insertionSort scoreGE (evaluated_hypotheses sf pf bf risk)
        = (l0, e0) :: (l1, e1) :: rest) :
    (∀ x ∈ evaluated_hypotheses sf pf bf risk, x.2.score ≤ e0.score) ∧
    e1.score ≤ e0.score ∧ (∀ x ∈ rest, x.2.score ≤ e1.score) ∧
    (mini_agent_classifier_node sf pf bf risk).alert_confidence = e0.score ∧
    (mini_agent_classifier_node sf pf bf risk).analysis_summary.supporting_evidence
      = e0.support ∧
    (mini_agent_classifier_node sf pf bf risk).analysis_summary.contradicting_evidence
      = e0.contradict ∧
    (|e0.score - e1.score| ≤ 0.1 →
      (mini_agent_classifier_node sf pf bf risk).alert_type = some "MULTI_VECTOR_ATTACK") ∧
    (0.1 < |e0.score - e1.score| →
      (mini_agent_classifier_node sf pf bf risk).alert_type = some l0) := by
  have hsorted : List.Sorted scoreGE ((l0, e0) :: (l1, e1) :: rest) := by
    rw [← hs]
    exact List.sorted_insertionSort scoreGE _
  have h1 : e1.score ≤ e0.score :=
    List.rel_of_sorted_cons hsorted (l1, e1) (List.mem_cons_self _ _)
  have h2 : ∀ x ∈ rest, x.2.score ≤ e1.score := fun x hx =>
    List.rel_of_sorted_cons (List.Sorted.of_cons hsorted) x hx
  rw [classifier_eq_of_sorted_pair hs]
  refine ⟨sorted_head_max hs, h1, h2, rfl, rfl, rfl, fun hc => ?_, fun hc => ?_⟩
  · show some (if |e0.score - e1.score| ≤ 0.1 then "MULTI_VECTOR_ATTACK" else l0)
      = some "MULTI_VECTOR_ATTACK"
    rw [if_pos hc]
  · show some (if |e0.score - e1.score| ≤ 0.1 then "MULTI_VECTOR_ATTACK" else l0)
      = some l0
    rw [if_neg (not_le.mpr hc)]

lemma tie_sorted_far : List.insertionSort scoreGE
    (evaluated_hypotheses ⟨0.79, 0, 0, 0⟩ ⟨0.9, 0, 0⟩ ⟨0, 0, 0⟩ 1)
    = [("SQL_INJECTION", ⟨["sql_injection_score"], ["login_velocity"], 0.75⟩),
       ("CREDENTIAL_STUFFING", ⟨["login_velocity"], ["sql_injection_score"], 0.64⟩)] := by
  have ha : evaluate_hypothesis
      (all_features ⟨0.79, 0, 0, 0⟩ ⟨0.9, 0, 0⟩ ⟨0, 0, 0⟩) 1
      ⟨"SQL_INJECTION", "sql_injection_score", 0.9,
        ["unexpected_field_score", "user_agent_anomaly_score"],
        ["login_velocity", "sequential_object_access"]⟩
      = some ⟨["sql_injection_score"], ["login_velocity"], 0.75⟩ := by
    rw [evaluate_hypothesis_of_gt _ _ _ (by norm_num)]
    simp [List.filter_cons, List.filter_nil, decide_eq_true_eq, all_features, lookupFeature,
      SequenceFeatures.toList, PayloadFeatures.toList, BehaviorFeatures.toList]
    norm_num [max_def]
  have hb : evaluate_hypothesis
      (all_features ⟨0.79, 0, 0, 0⟩ ⟨0.9, 0, 0⟩ ⟨0, 0, 0⟩) 1
      ⟨"CREDENTIAL_STUFFING", "login_velocity", 0.79,
        ["request_frequency", "geo_deviation_score"],
        ["sql_injection_score", "sequential_object_access"]⟩
      = some ⟨["login_velocity"], ["sql_injection_score"], 0.64⟩ := by
    rw [evaluate_hypothesis_of_gt _ _ _ (by norm_num)]
    simp [List.filter_cons, List.filter_nil, decide_eq_true_eq, all_features, lookupFeature,
      SequenceFeatures.toList, PayloadFeatures.toList, BehaviorFeatures.toList]
    norm_num [max_def]
  have hc : evaluate_hypothesis
      (all_features ⟨0.79, 0, 0, 0⟩ ⟨0.9, 0, 0⟩ ⟨0, 0, 0⟩) 1
      ⟨"POSSIBLE_IDOR", "sequential_object_access", 0,
        ["role_deviation_score", "request_frequency"],
        ["sql_injection_score", "login_velocity"]⟩ = none :=
    evaluate_hypothesis_of_le _ _ _ (by norm_num)
  have hd : evaluate_hypothesis
      (all_features ⟨0.79, 0, 0, 0⟩ ⟨0.9, 0, 0⟩ ⟨0, 0, 0⟩) 1
      ⟨"BUSINESS_LOGIC_ABUSE", "repeated_action_score", 0,
        ["request_frequency", "role_deviation_score"],
        ["sql_injection_score", "login_velocity"]⟩ = none :=
    evaluate_hypothesis_of_le _ _ _ (by norm_num)
  have hev : evaluated_hypotheses ⟨0.79, 0, 0, 0⟩ ⟨0.9, 0, 0⟩ ⟨0, 0, 0⟩ 1
      = [("SQL_INJECTION", ⟨["sql_injection_score"], ["login_velocity"], 0.75⟩),
         ("CREDENTIAL_STUFFING", ⟨["login_velocity"], ["sql_injection_score"], 0.64⟩)] := by
    simp only [evaluated_hypotheses, hypothesis_definitions, List.filterMap_cons,
      List.filterMap_nil, ha, hb, hc, hd, Option.map_some', Option.map_none']
  rw [hev]
  simp only [List.insertionSort, List.orderedInsert]
  rw [if_pos (show scoreGE ("SQL_INJECTION", ⟨["sql_injection_score"], ["login_velocity"], 0.75⟩)
    ("CREDENTIAL_STUFFING", ⟨["login_velocity"], ["sql_injection_score"], 0.64⟩) by
      show (0.64 : ℚ) ≤ 0.75
      norm_num)]

lemma tie_sorted_near : List.insertionSort scoreGE
    (evaluated_hypotheses ⟨0.8, 0, 0, 0⟩ ⟨0.9, 0, 0⟩ ⟨0, 0, 0⟩ 1)
    = [("SQL_INJECTION", ⟨["sql_injection_score"], ["login_velocity"], 0.75⟩),
       ("CREDENTIAL_STUFFING", ⟨["login_velocity"], ["sql_injection_score"], 0.65⟩)] := by
  have ha : evaluate_hypothesis
      (all_features ⟨0.8, 0, 0, 0⟩ ⟨0.9, 0, 0⟩ ⟨0, 0, 0⟩) 1
      ⟨"SQL_INJECTION", "sql_injection_score", 0.9,
        ["unexpected_field_score", "user_agent_anomaly_score"],
        ["login_velocity", "sequential_object_access"]⟩
      = some ⟨["sql_injection_score"], ["login_velocity"], 0.75⟩ := by
    rw [evaluate_hypothesis_of_gt _ _ _ (by norm_num)]
    simp [List.filter_cons, List.filter_nil, decide_eq_true_eq, all_features, lookupFeature,
      SequenceFeatures.toList, PayloadFeatures.toList, BehaviorFeatures.toList]
    norm_num [max_def]
  have hb : evaluate_hypothesis
      (all_features ⟨0.8, 0, 0, 0⟩ ⟨0.9, 0, 0⟩ ⟨0, 0, 0⟩) 1
      ⟨"CREDENTIAL_STUFFING", "login_velocity", 0.8,
        ["request_frequency", "geo_deviation_score"],
        ["sql_injection_score", "sequential_object_access"]⟩
      = some ⟨["login_velocity"], ["sql_injection_score"], 0.65⟩ := by
    rw [evaluate_hypothesis_of_gt _ _ _ (by norm_num)]
    simp [List.filter_cons, List.filter_nil, decide_eq_true_eq, all_features, lookupFeature,
      SequenceFeatures.toList, PayloadFeatures.toList, BehaviorFeatures.toList]
    norm_num [max_def]
  have hc : evaluate_hypothesis
      (all_features ⟨0.8, 0, 0, 0⟩ ⟨0.9, 0, 0⟩ ⟨0, 0, 0⟩) 1
      ⟨"POSSIBLE_IDOR", "sequential_object_access", 0,
        ["role_deviation_score", "request_frequency"],
        ["sql_injection_score", "login_velocity"]⟩ = none :=
    evaluate_hypothesis_of_le _ _ _ (by norm_num)
  have hd : evaluate_hypothesis
      (all_features ⟨0.8, 0, 0, 0⟩ ⟨0.9, 0, 0⟩ ⟨0, 0, 0⟩) 1
      ⟨"BUSINESS_LOGIC_ABUSE", "repeated_action_score", 0,
        ["request_frequency", "role_deviation_score"],
        ["sql_injection_score", "login_velocity"]⟩ = none :=
    evaluate_hypothesis_of_le _ _ _ (by norm_num)
  have hev : evaluated_hypotheses ⟨0.8, 0, 0, 0⟩ ⟨0.9, 0, 0⟩ ⟨0, 0, 0⟩ 1
      = [("SQL_INJECTION", ⟨["sql_injection_score"], ["login_velocity"], 0.75⟩),
         ("CREDENTIAL_STUFFING", ⟨["login_velocity"], ["sql_injection_score"], 0.65⟩)] := by
    simp only [evaluated_hypotheses, hypothesis_definitions, List.filterMap_cons,
      List.filterMap_nil, ha, hb, hc, hd, Option.map_some', Option.map_none']
  rw [hev]
  simp only [List.insertionSort, List.orderedInsert]
  rw [if_pos (show scoreGE ("SQL_INJECTION", ⟨["sql_injection_score"], ["login_velocity"], 0.75⟩)
    ("CREDENTIAL_STUFFING", ⟨["login_velocity"], ["sql_injection_score"], 0.65⟩) by
      show (0.65 : ℚ) ≤ 0.75
      norm_num)]

/-- Witness for C2: with scores 0.75 vs 0.65 (difference exactly 0.1) the
label is overridden to MULTI_VECTOR_ATTACK while the confidence stays the top
score; with scores 0.75 vs 0.64 (difference 0.11) the top hypothesis's own
label is kept. -/
theorem tie_break_selection_witness :
    (mini_agent_classifier_node ⟨0.8, 0, 0, 0⟩ ⟨0.9, 0, 0⟩ ⟨0, 0, 0⟩ 1).alert_type
      = some "MULTI_VECTOR_ATTACK" ∧
    (mini_agent_classifier_node ⟨0.8, 0, 0, 0⟩ ⟨0.9, 0, 0⟩ ⟨0, 0, 0⟩ 1).alert_confidence
      = 0.75 ∧
    (mini_agent_classifier_node ⟨0.79, 0, 0, 0⟩ ⟨0.9, 0, 0⟩ ⟨0, 0, 0⟩ 1).alert_type
      = some "SQL_INJECTION" :=
  ⟨(tie_break_selection _ _ _ 1 _ _ _ _ _ tie_sorted_near).2.2.2.2.2.2.1 (by norm_num [abs_le]),
   (tie_break_selection _ _ _ 1 _ _ _ _ _ tie_sorted_near).2.2.2.1,
   (tie_break_selection _ _ _ 1 _ _ _ _ _ tie_sorted_far).2.2.2.2.2.2.2 (by norm_num [lt_abs])⟩
